import Mathlib

/-!
Verification development for the OpenWebUI "Chat ID Tracker" filter
(`open_web_chat_id_pipe.py`).

The Python module defines a class `Filter` with mutable per-instance state
(`_conversation_store : dict[str, str]` mapping conversation fingerprints to
chat ids, and `_active_streams : dict` mapping session ids to stream-info
dicts) and three operations: `inlet` (resolve conversation/session ids on a
request body), `outlet` (mark a session finished on a response body) and
`handle_stop` (forward a stop request to the backend).

Modelling conventions:
* Python values occurring in request/response bodies are embedded as the
  inductive `Val` (`None`, `bool`, `int`, `str`, `list`, `dict`).  Python
  truthiness and hashability are modelled by `truthy` and `hashable`.
  Python `==` is modelled by `Val.beq`, structural equality; the numeric
  cross-type equalities of Python (`True == 1`) are not modelled — no code
  path in this module compares a bool with an int.
* Python `dict`s are insertion-ordered association lists; lookup takes the
  first matching key, assignment updates the first matching key in place or
  appends a fresh binding at the end, exactly like CPython dicts.
* Exceptions are modelled by `Except PyErr`: `TypeError` (iterating a
  non-list, unhashable dict key) and `AttributeError` (`.get` on a non-dict,
  `.encode` on a non-string).  Iteration is modelled only for `list` values;
  Python also iterates `str`/`dict`/`tuple` (raising `AttributeError` at the
  first element unless empty) — those exotic inputs are reported as
  `TypeError` here and no theorem or counterexample below touches them.
* `hashlib.sha256(...).hexdigest()` is implemented bit-for-bit (FIPS 180-4)
  over the UTF-8 bytes of the content string.
* `str(uuid.uuid4())` draws a fresh random token; it is modelled by a
  deterministic generator `uuidStr` driven by a per-state counter, the
  standard idealisation of a fresh-unique-id source (collisions of uuid4 are
  ignored, as the spec itself does).
* `time.time()` is an external input and is passed to each operation as an
  explicit `now : Nat` argument.
* The blocking `requests.post` call of `handle_stop` is external: the
  backend's answer is passed in as a `BackendResp` argument, and the call
  the code would make is reported in the result as an `Option NetCall`
  (`none` = no network call was made).
-/

namespace ChatIdPipe

/-!
Embedded Python values: the JSON-like fragment the filter manipulates.
`ValList`/`ValPairs` are the payloads of Python lists and dicts; they are
mutually inductive with `Val` (rather than reusing `List`) so that all
functions over them are plain structural recursions that reduce in the
kernel.
-/

mutual

/-- An embedded Python value. -/
inductive Val where
  | vNull : Val
  | vBool : Bool → Val
  | vInt : Int → Val
  | vStr : String → Val
  | vList : ValList → Val
  | vDict : ValPairs → Val

/-- Payload of an embedded Python list. -/
inductive ValList where
  | nil : ValList
  | cons : Val → ValList → ValList

/-- Payload of an embedded Python dict (insertion-ordered key/value pairs). -/
inductive ValPairs where
  | nil : ValPairs
  | cons : Val → Val → ValPairs → ValPairs

end

open Val

/-- Build a `ValList` from a Lean list (literal convenience only). -/
def ValList.ofList : List Val → ValList
  | [] => .nil
  | v :: vs => .cons v (ValList.ofList vs)

/-- Build a `ValPairs` from a Lean list (literal convenience only). -/
def ValPairs.ofList : List (Val × Val) → ValPairs
  | [] => .nil
  | (k, v) :: kvs => .cons k v (ValPairs.ofList kvs)

mutual

/-- Python `==` on embedded values: structural equality on this fragment.
(The numeric cross-type equalities of Python, such as `True == 1`, are not
modelled; no code path in this module compares a bool with an int.) -/
def Val.beq : Val → Val → Bool
  | vNull, vNull => true
  | vBool x, vBool y => x == y
  | vInt x, vInt y => x == y
  | vStr x, vStr y => x == y
  | vList xs, vList ys => ValList.beq xs ys
  | vDict xs, vDict ys => ValPairs.beq xs ys
  | _, _ => false

/-- Elementwise equality of embedded Python lists. -/
def ValList.beq : ValList → ValList → Bool
  | .nil, .nil => true
  | .cons x xs, .cons y ys => Val.beq x y && ValList.beq xs ys
  | _, _ => false

/-- Elementwise equality of embedded Python dicts.  (Python dict equality is
order-insensitive; the filter never compares two dicts, so the simpler
ordered model is used.) -/
def ValPairs.beq : ValPairs → ValPairs → Bool
  | .nil, .nil => true
  | .cons k v ks, .cons l w ls => Val.beq k l && Val.beq v w && ValPairs.beq ks ls
  | _, _ => false

end

/-- Python truthiness (`bool(x)`). -/
def truthy : Val → Bool
  | vNull => false
  | vBool b => b
  | vInt n => n != 0
  | vStr s => s != ""
  | vList .nil => false
  | vList _ => true
  | vDict .nil => false
  | vDict _ => true

/-- Python hashability: lists and dicts are unhashable, everything else in
this fragment is hashable. -/
def hashable : Val → Bool
  | vList _ => false
  | vDict _ => false
  | _ => true

/-- Exceptions the filter's code can raise on malformed bodies. -/
inductive PyErr where
  | typeError : PyErr
  | attributeError : PyErr
deriving DecidableEq

/-- A Python dict as an insertion-ordered association list. -/
abbrev Dict := List (Val × Val)

/-- `d.get(k)` with string key `k`: the value at the first matching key. -/
def dgetOpt (d : Dict) (k : String) : Option Val :=
  match d with
  | [] => none
  | (k', v) :: rest => if Val.beq k' (vStr k) then some v else dgetOpt rest k

/-- `d.get(k, dflt)`. -/
def dget (d : Dict) (k : String) (dflt : Val) : Val :=
  (dgetOpt d k).getD dflt

/-- `d[k] = v`: update the first matching key in place, else append. -/
def dset (d : Dict) (k : String) (v : Val) : Dict :=
  match d with
  | [] => [(vStr k, v)]
  | (k', v') :: rest =>
    if Val.beq k' (vStr k) then (k', v) :: rest else (k', v') :: dset rest k v

/-- `m.get(k, dflt)` for a dict embedded inside a `Val` (a message). -/
def ValPairs.get (m : ValPairs) (k : String) (dflt : Val) : Val :=
  match m with
  | .nil => dflt
  | .cons k' v rest => if Val.beq k' (vStr k) then v else ValPairs.get rest k dflt

/-! ### SHA-256 (FIPS 180-4), over `Nat` with explicit reduction mod 2^32 -/

/-- Reduce to a 32-bit word. -/
def m32 (x : Nat) : Nat := x % 4294967296

/-- Right rotation of a 32-bit word. -/
def rotr (n x : Nat) : Nat := m32 ((x >>> n) ||| (x <<< (32 - n)))

/-- SHA-256 `Ch` function. -/
def shaCh (x y z : Nat) : Nat := (x &&& y) ^^^ ((4294967295 ^^^ x) &&& z)

/-- SHA-256 `Maj` function. -/
def shaMaj (x y z : Nat) : Nat := (x &&& y) ^^^ (x &&& z) ^^^ (y &&& z)

/-- SHA-256 Σ₀. -/
def bigS0 (x : Nat) : Nat := rotr 2 x ^^^ rotr 13 x ^^^ rotr 22 x

/-- SHA-256 Σ₁. -/
def bigS1 (x : Nat) : Nat := rotr 6 x ^^^ rotr 11 x ^^^ rotr 25 x

/-- SHA-256 σ₀. -/
def smallS0 (x : Nat) : Nat := rotr 7 x ^^^ rotr 18 x ^^^ (x >>> 3)

/-- SHA-256 σ₁. -/
def smallS1 (x : Nat) : Nat := rotr 17 x ^^^ rotr 19 x ^^^ (x >>> 10)

/-- SHA-256 round constants K. -/
def shaK : List Nat :=
  [1116352408, 1899447441, 3049323471, 3921009573, 961987163, 1508970993,
   2453635748, 2870763221, 3624381080, 310598401, 607225278, 1426881987,
   1925078388, 2162078206, 2614888103, 3248222580, 3835390401, 4022224774,
   264347078, 604807628, 770255983, 1249150122, 1555081692, 1996064986,
   2554220882, 2821834349, 2952996808, 3210313671, 3336571891, 3584528711,
   113926993, 338241895, 666307205, 773529912, 1294757372, 1396182291,
   1695183700, 1986661051, 2177026350, 2456956037, 2730485921, 2820302411,
   3259730800, 3345764771, 3516065817, 3600352804, 4094571909, 275423344,
   430227734, 506948616, 659060556, 883997877, 958139571, 1322822218,
   1537002063, 1747873779, 1955562222, 2024104815, 2227730452, 2361852424,
   2428436474, 2756734187, 3204031479, 3329325298]

/-- SHA-256 initial hash value H⁽⁰⁾. -/
def shaH0 : List Nat :=
  [1779033703, 3144134277, 1013904242, 2773480762,
   1359893119, 2600822924, 528734635, 1541459225]

/-- UTF-8 encoding of one character (code point → bytes). -/
def charUtf8 (c : Char) : List Nat :=
  let n := c.toNat
  if n < 0x80 then [n]
  else if n < 0x800 then [0xC0 + n / 64, 0x80 + n % 64]
  else if n < 0x10000 then
    [0xE0 + n / 4096, 0x80 + (n / 64) % 64, 0x80 + n % 64]
  else
    [0xF0 + n / 262144, 0x80 + (n / 4096) % 64, 0x80 + (n / 64) % 64,
     0x80 + n % 64]

/-- UTF-8 bytes of a string (model of `str.encode()`). -/
def utf8Bytes (s : String) : List Nat := (s.data.map charUtf8).flatten

/-- SHA-256 message padding: `0x80`, zeros to 56 mod 64, 8-byte big-endian
bit length. -/
def shaPad (msg : List Nat) : List Nat :=
  let l := msg.length
  let zeros := (119 - l % 64) % 64
  let bits := 8 * l
  msg ++ [0x80] ++ List.replicate zeros 0 ++
    ((List.range 8).map fun i => (bits >>> (8 * (7 - i))) % 256)

/-- Split the padded message into 64-byte blocks (fuel = list length). -/
def toBlocksF : Nat → List Nat → List (List Nat)
  | 0, _ => []
  | _ + 1, [] => []
  | n + 1, l => l.take 64 :: toBlocksF n (l.drop 64)

/-- 64-byte blocks of a byte list. -/
def toBlocks (l : List Nat) : List (List Nat) := toBlocksF l.length l

/-- Big-endian 32-bit words from bytes. -/
def bytesToWords : List Nat → List Nat
  | a :: b :: c :: d :: rest => (((a * 256 + b) * 256 + c) * 256 + d) :: bytesToWords rest
  | _ => []

/-- Message-schedule extension: given the reversed schedule so far, prepend
`count` further words `w[t] = σ₁ w[t-2] + w[t-7] + σ₀ w[t-15] + w[t-16]`. -/
def schedExt : Nat → List Nat → List Nat
  | 0, wrev => wrev
  | n + 1, wrev =>
    let w := m32 (smallS1 (wrev.getD 1 0) + wrev.getD 6 0 +
                  smallS0 (wrev.getD 14 0) + wrev.getD 15 0)
    schedExt n (w :: wrev)

/-- The 64-word message schedule of one block. -/
def schedule (block : List Nat) : List Nat :=
  (schedExt 48 (bytesToWords block).reverse).reverse

/-- One compression round; the state is the tuple (a,b,c,d,e,f,g,h). -/
def shaRound (st : List Nat) (kw : Nat × Nat) : List Nat :=
  match st with
  | [a, b, c, d, e, f, g, h] =>
    let t1 := m32 (h + bigS1 e + shaCh e f g + kw.1 + kw.2)
    let t2 := m32 (bigS0 a + shaMaj a b c)
    [m32 (t1 + t2), a, b, c, m32 (d + t1), e, f, g]
  | other => other

/-- Compress one block into the running hash. -/
def shaBlock (hs : List Nat) (block : List Nat) : List Nat :=
  let fin := ((shaK.zip (schedule block)).foldl shaRound hs)
  (hs.zip fin).map fun p => m32 (p.1 + p.2)

/-- Hex digit (lowercase). -/
def hexChar (n : Nat) : Char :=
  if n < 10 then Char.ofNat (48 + n) else Char.ofNat (87 + n)

/-- Eight lowercase hex digits of one 32-bit word. -/
def wordHex (w : Nat) : List Char :=
  (List.range 8).map fun i => hexChar ((w >>> (4 * (7 - i))) % 16)

/-- `hashlib.sha256(s.encode()).hexdigest()`. -/
def sha256hex (s : String) : String :=
  String.mk ((((toBlocks (shaPad (utf8Bytes s))).foldl shaBlock shaH0).map wordHex).flatten)

/-! ### The filter's state and operations -/

/-- The configuration valves of the filter (externally supplied; defaults as
in the source). -/
structure Valves where
  priority : Int := 0
  backend_url : String := "http://host.docker.internal:8081"
  stop_endpoint : String := "/stop"

/-- One entry of `_active_streams`: the per-session stream-info dict.  The
source always creates it with exactly the keys `chat_id`, `start_time`,
`active`; `end_time`, `stopped_by_user`, `stop_time` are added later, hence
`Option` (`none` = key not present). -/
structure StreamInfo where
  chat_id : Val
  start_time : Nat
  active : Bool
  end_time : Option Nat
  stopped_by_user : Option Bool
  stop_time : Option Nat

/-- The mutable state of a `Filter` instance: its valves,
`_conversation_store` (fingerprint hex digest → chat id, insertion-ordered)
and `_active_streams` (session id → stream info, insertion-ordered), plus
the counter driving the idealised `uuid.uuid4()` generator. -/
structure FilterState where
  valves : Valves
  conversation_store : List (String × String)
  active_streams : List (Val × StreamInfo)
  uuid_ctr : Nat

/-- `Filter.__init__`: default valves, both stores empty. -/
def initState : FilterState :=
  { valves := {}, conversation_store := [], active_streams := [], uuid_ctr := 0 }

/-- Model of `str(uuid.uuid4())`: the `n`-th token drawn from the fresh-id
source. -/
def uuidStr (n : Nat) : String := "uuid-" ++ Nat.repr n

/-- Lookup in the conversation store (Python `dict[str, str]` access). -/
def lookupStr (k : String) : List (String × String) → Option String
  | [] => none
  | (k', v) :: rest => if k' == k then some v else lookupStr k rest

/-- The values view of the conversation store (`dict.values()`). -/
def storeValues (l : List (String × String)) : List String := l.map Prod.snd

/-- Lookup in `_active_streams` by session id. -/
def lookupStream (k : Val) : List (Val × StreamInfo) → Option StreamInfo
  | [] => none
  | (k', v) :: rest => if Val.beq k' k then some v else lookupStream k rest

/-- `_active_streams[k] = v`: update the first matching key in place (Python
keeps the originally inserted key object), else append. -/
def setStream (k : Val) (v : StreamInfo) : List (Val × StreamInfo) → List (Val × StreamInfo)
  | [] => [(k, v)]
  | (k', v') :: rest =>
    if Val.beq k' k then (k', v) :: rest else (k', v') :: setStream k v rest

/-- `Filter._hash_user_messages`, iteration part: the content string of the
first message whose `role` equals `"user"`, `""` if there is none.  Errors:
`.get` on a non-dict element raises `AttributeError`; a non-string `content`
value raises `AttributeError` at `.encode()`. -/
def firstUserContentList : ValList → Except PyErr String
  | .nil => .ok ""
  | .cons (vDict m) rest =>
    if Val.beq (ValPairs.get m "role" vNull) (vStr "user") then
      match ValPairs.get m "content" (vStr "") with
      | vStr s => .ok s
      | _ => .error .attributeError
    else firstUserContentList rest
  | .cons _ _ => .error .attributeError

/-- The string `Filter._hash_user_messages` would hash for a given
`messages` value.  Iterating a non-list raises `TypeError`.  (Python would
also iterate `str`/`dict`/`tuple` values, raising `AttributeError` at the
first element; those exotic cases are conservatively reported as `TypeError`
here, and no theorem below relies on them.) -/
def firstUserContent : Val → Except PyErr String
  | vList ms => firstUserContentList ms
  | _ => .error .typeError

/-- `Filter._hash_user_messages(messages)`. -/
def hashUserMessages (messages : Val) : Except PyErr String :=
  (firstUserContent messages).map sha256hex

/-- The trusted-client test of `inlet` (line 44 of the source):
`provided_chat_id and provided_chat_id in self._conversation_store.values()`. -/
def trustedProvided (body : Dict) (s : FilterState) : Bool :=
  truthy (dget body "chat_id" vNull) &&
    (storeValues s.conversation_store).any
      (fun v => Val.beq (dget body "chat_id" vNull) (vStr v))

/-- Lines 42–52 of the source: decide the chat id, write it into the body,
and return the updated conversation store and uuid counter. -/
def resolveChatId (conv_hash : String) (body : Dict) (s : FilterState) :
    Dict × List (String × String) × Nat :=
  if trustedProvided body s then
    (dset body "chat_id" (dget body "chat_id" vNull), s.conversation_store, s.uuid_ctr)
  else
    match lookupStr conv_hash s.conversation_store with
    | some cid => (dset body "chat_id" (vStr cid), s.conversation_store, s.uuid_ctr)
    | none =>
      let cid := uuidStr s.uuid_ctr
      (dset body "chat_id" (vStr cid), s.conversation_store ++ [(conv_hash, cid)],
       s.uuid_ctr + 1)

/-- Lines 54–58 of the source: take the client session id if truthy, else
generate `session-{int(time.time())}`; return the updated body and the
session id used as the registry key. -/
def assignSession (body1 : Dict) (now : Nat) : Dict × Val :=
  let sid0 := dget body1 "session_id" vNull
  if truthy sid0 then (body1, sid0)
  else
    let g := vStr ("session-" ++ Nat.repr now)
    (dset body1 "session_id" g, g)

/-- Lines 42–67 of the source after the fingerprint has been computed:
resolve the chat id, assign the session id and register the stream entry.
An unhashable truthy `session_id` raises `TypeError` at the registry write
(line 61), after the conversation-store write has already happened. -/
def inletCore (conv_hash : String) (body : Dict) (now : Nat) (s : FilterState) :
    Except PyErr Dict × FilterState :=
  let rc := resolveChatId conv_hash body s
  let asn := assignSession rc.1 now
  if hashable asn.2 then
    (.ok asn.1,
     { s with
       conversation_store := rc.2.1, uuid_ctr := rc.2.2,
       active_streams :=
         setStream asn.2
           { chat_id := dget asn.1 "chat_id" vNull, start_time := now, active := true,
             end_time := none, stopped_by_user := none, stop_time := none }
           s.active_streams })
  else
    (.error .typeError, { s with conversation_store := rc.2.1, uuid_ctr := rc.2.2 })

/-- `Filter.inlet(body)`.  `now` is the value of `time.time()` during the
call.  Returns the (possibly partial) state next to the result; a raised
exception leaves behind exactly the writes the source performed before the
raise. -/
def inlet (body : Dict) (now : Nat) (s : FilterState) : Except PyErr Dict × FilterState :=
  let messages := dget body "messages" (vList .nil)
  match hashUserMessages messages with
  | .error e => (.error e, s)
  | .ok conv_hash => inletCore conv_hash body now s

/-- `Filter.outlet(body)`.  An unhashable (list/dict) truthy `session_id`
raises `TypeError` at the `in` membership test, before any write. -/
def outlet (body : Dict) (now : Nat) (s : FilterState) : Except PyErr Dict × FilterState :=
  let sid := dget body "session_id" vNull
  if truthy sid then
    if hashable sid then
      match lookupStream sid s.active_streams with
      | some info =>
        if truthy (dget body "done" (vBool false)) || truthy (dget body "stop_reason" vNull) then
          (.ok body,
           { s with
             active_streams :=
               setStream sid { info with active := false, end_time := some now }
                 s.active_streams })
        else (.ok body, s)
      | none => (.ok body, s)
    else (.error .typeError, s)
  else (.ok body, s)

/-- The backend's answer to the `requests.post` stop call, an external
input: either an HTTP status code or a transport failure
(`requests.exceptions.RequestException`, timeout or unreachable host). -/
inductive BackendResp where
  | status : Nat → BackendResp
  | transportError : String → BackendResp

/-- The network call `handle_stop` makes: target URL and JSON payload. -/
structure NetCall where
  url : String
  payload : Dict

/-- `Filter.handle_stop(session_id)`.  The third component reports the
network call made (`none` = no call).  The function has no failure path:
every outcome is a structured `{status, message}` dict. -/
def handle_stop (session_id : String) (resp : BackendResp) (now : Nat)
    (s : FilterState) : Dict × FilterState × Option NetCall :=
  match lookupStream (vStr session_id) s.active_streams with
  | none =>
    ([(vStr "status", vStr "error"), (vStr "message", vStr "Session not found")], s, none)
  | some info =>
    let call : NetCall :=
      { url := s.valves.backend_url ++ s.valves.stop_endpoint,
        payload := [(vStr "session_id", vStr session_id), (vStr "chat_id", info.chat_id)] }
    match resp with
    | .status code =>
      if code == 200 then
        ([(vStr "status", vStr "success"), (vStr "message", vStr "Stream stopped")],
         { s with
           active_streams :=
             setStream (vStr session_id)
               { info with active := false, stopped_by_user := some true,
                           stop_time := some now }
               s.active_streams },
         some call)
      else
        ([(vStr "status", vStr "error"),
          (vStr "message", vStr ("Backend returned " ++ Nat.repr code))], s, some call)
    | .transportError m =>
      ([(vStr "status", vStr "error"),
        (vStr "message", vStr ("Failed to reach backend: " ++ m))], s, some call)

/-- One invocation of the filter, with its external inputs (clock, backend
answer). -/
inductive Op where
  | opInlet : Dict → Nat → Op
  | opOutlet : Dict → Nat → Op
  | opStop : String → BackendResp → Nat → Op

/-- The state transition of one invocation. -/
def step (s : FilterState) : Op → FilterState
  | .opInlet b n => (inlet b n s).2
  | .opOutlet b n => (outlet b n s).2
  | .opStop sid r n => (handle_stop sid r n s).2.1

/-- The state after a sequence of invocations. -/
def runOps (s : FilterState) (ops : List Op) : FilterState := ops.foldl step s

/-! ### Basic lemmas about the value and dictionary model -/

/-- `Val.beq` against a string literal holds exactly for that string. -/
theorem beq_vStr_iff {x : Val} {t : String} : Val.beq x (vStr t) = true ↔ x = vStr t := by
  cases x <;> simp [Val.beq]

/-- `Val.beq` of two string literals is string equality. -/
theorem beq_vStr_vStr (a b : String) : Val.beq (vStr a) (vStr b) = (a == b) := rfl

/-- Reading back the key just written. -/
theorem dgetOpt_dset_self (d : Dict) (k : String) (v : Val) :
    dgetOpt (dset d k v) k = some v := by
  induction d with
  | nil => simp [dset, dgetOpt, Val.beq]
  | cons p rest ih =>
    obtain ⟨k', v'⟩ := p
    by_cases h : Val.beq k' (vStr k) = true
    · simp [dset, h, dgetOpt]
    · simp [dset, h, dgetOpt, ih]

/-- Writing one key does not affect reads of another. -/
theorem dgetOpt_dset_ne (d : Dict) {k k' : String} (v : Val) (h : k' ≠ k) :
    dgetOpt (dset d k v) k' = dgetOpt d k' := by
  have hne : Val.beq (vStr k) (vStr k') = false := by
    rw [beq_vStr_vStr]
    exact beq_false_of_ne fun hk => h hk.symm
  induction d with
  | nil => simp [dset, dgetOpt, hne]
  | cons p rest ih =>
    obtain ⟨k0, v0⟩ := p
    by_cases hk : Val.beq k0 (vStr k) = true
    · have hk0 : k0 = vStr k := beq_vStr_iff.mp hk
      subst hk0
      simp [dset, dgetOpt, hne, hk]
    · simp [dset, hk, dgetOpt, ih]

/-- `dget` after `dset` of the same key. -/
theorem dget_dset_self (d : Dict) (k : String) (v dflt : Val) :
    dget (dset d k v) k dflt = v := by
  simp [dget, dgetOpt_dset_self]

/-! ### Basic lemmas about the stores -/

/-- A stored binding survives appending fresh bindings at the end. -/
theorem lookupStr_append_some {k : String} {l : List (String × String)} {v : String}
    (h : lookupStr k l = some v) (l' : List (String × String)) :
    lookupStr k (l ++ l') = some v := by
  induction l with
  | nil => simp [lookupStr] at h
  | cons p rest ih =>
    obtain ⟨k0, v0⟩ := p
    by_cases hk : k0 == k
    · simpa [lookupStr, hk] using h
    · simp only [lookupStr, hk, if_false, Bool.false_eq_true, List.cons_append] at h ⊢
      exact ih h

/-- A fresh binding appended to a store that lacks the key is then found. -/
theorem lookupStr_append_self {k : String} {l : List (String × String)} (v : String)
    (h : lookupStr k l = none) :
    lookupStr k (l ++ [(k, v)]) = some v := by
  induction l with
  | nil => simp [lookupStr]
  | cons p rest ih =>
    obtain ⟨k0, v0⟩ := p
    by_cases hk : k0 == k
    · simp [lookupStr, hk] at h
    · simp only [lookupStr, hk, if_false, Bool.false_eq_true, List.cons_append] at h ⊢
      exact ih h

/-- A found value is among the store's values. -/
theorem lookupStr_mem_values {k : String} {l : List (String × String)} {v : String}
    (h : lookupStr k l = some v) : v ∈ storeValues l := by
  induction l with
  | nil => simp [lookupStr] at h
  | cons p rest ih =>
    obtain ⟨k0, v0⟩ := p
    by_cases hk : k0 == k
    · simp only [lookupStr, hk, if_true, Option.some.injEq] at h
      simp [storeValues, h]
    · simp only [lookupStr, hk, if_false, Bool.false_eq_true] at h
      simp only [storeValues, List.map_cons, List.mem_cons]
      exact Or.inr (ih h)

/-- Values of an extended store contain the old values. -/
theorem storeValues_append (l l' : List (String × String)) :
    storeValues (l ++ l') = storeValues l ++ storeValues l' := by
  simp [storeValues]

/-- A found stream entry is a value of the registry. -/
theorem lookupStream_mem {k : Val} {l : List (Val × StreamInfo)} {i : StreamInfo}
    (h : lookupStream k l = some i) : ∃ k', (k', i) ∈ l := by
  induction l with
  | nil => simp [lookupStream] at h
  | cons p rest ih =>
    obtain ⟨k0, v0⟩ := p
    by_cases hk : Val.beq k0 k = true
    · simp only [lookupStream, hk, if_true, Option.some.injEq] at h
      exact ⟨k0, by simp [h]⟩
    · simp only [lookupStream, hk, if_false, Bool.false_eq_true] at h
      obtain ⟨k', hk'⟩ := ih h
      exact ⟨k', List.mem_cons_of_mem _ hk'⟩

/-- Entries after a registry write: either the written info or an old entry. -/
theorem setStream_mem {k : Val} {v : StreamInfo} {l : List (Val × StreamInfo)}
    {p : Val × StreamInfo} (h : p ∈ setStream k v l) : p.2 = v ∨ p ∈ l := by
  induction l with
  | nil =>
    simp [setStream] at h
    simp [h]
  | cons q rest ih =>
    by_cases hk : Val.beq q.1 k = true
    · obtain ⟨k0, v0⟩ := q
      simp only [setStream, hk, if_true] at h
      rcases List.mem_cons.mp h with h | h
      · exact Or.inl (by simp [h])
      · exact Or.inr (List.mem_cons_of_mem _ h)
    · obtain ⟨k0, v0⟩ := q
      simp only [setStream, hk, if_false, Bool.false_eq_true] at h
      rcases List.mem_cons.mp h with h | h
      · exact Or.inr (by simp [h])
      · rcases ih h with h | h
        · exact Or.inl h
        · exact Or.inr (List.mem_cons_of_mem _ h)

/-! ### Characterisation of the operations -/

/-- The trusted-client branch of the resolver. -/
theorem resolveChatId_trusted {body : Dict} {s : FilterState} (conv_hash : String)
    (ht : trustedProvided body s = true) :
    resolveChatId conv_hash body s =
      (dset body "chat_id" (dget body "chat_id" vNull), s.conversation_store, s.uuid_ctr) := by
  simp [resolveChatId, ht]

/-- The fingerprint-reuse branch of the resolver. -/
theorem resolveChatId_found {body : Dict} {s : FilterState} {conv_hash : String}
    {cid : String} (hnt : trustedProvided body s = false)
    (hf : lookupStr conv_hash s.conversation_store = some cid) :
    resolveChatId conv_hash body s =
      (dset body "chat_id" (vStr cid), s.conversation_store, s.uuid_ctr) := by
  simp [resolveChatId, hnt, hf]

/-- The fresh-identifier branch of the resolver. -/
theorem resolveChatId_new {body : Dict} {s : FilterState} {conv_hash : String}
    (hnt : trustedProvided body s = false)
    (hf : lookupStr conv_hash s.conversation_store = none) :
    resolveChatId conv_hash body s =
      (dset body "chat_id" (vStr (uuidStr s.uuid_ctr)),
       s.conversation_store ++ [(conv_hash, uuidStr s.uuid_ctr)], s.uuid_ctr + 1) := by
  simp [resolveChatId, hnt, hf]

/-- Assigning the session id does not touch the `chat_id` field. -/
theorem assignSession_chat_id (b1 : Dict) (now : Nat) :
    dgetOpt (assignSession b1 now).1 "chat_id" = dgetOpt b1 "chat_id" := by
  rw [assignSession]
  by_cases h : truthy (dget b1 "session_id" vNull) = true
  · simp [h]
  · simp only [h, Bool.false_eq_true, if_false]
    exact dgetOpt_dset_ne _ _ (by decide)

/-- An absent client chat id fails the trusted test. -/
theorem trustedProvided_of_absent {body : Dict} {s : FilterState}
    (h : dgetOpt body "chat_id" = none) : trustedProvided body s = false := by
  simp [trustedProvided, dget, h, truthy]

/-- On success, `inlet` returns the body produced by the resolver and the
session assignment. -/
theorem inlet_ok_body {body : Dict} {now : Nat} {s : FilterState} {conv_hash : String}
    {r : Dict}
    (hh : hashUserMessages (dget body "messages" (vList .nil)) = .ok conv_hash)
    (hr : (inlet body now s).1 = .ok r) :
    r = (assignSession (resolveChatId conv_hash body s).1 now).1 := by
  rw [inlet] at hr
  simp only [hh] at hr
  rw [inletCore] at hr
  by_cases hhash : hashable (assignSession (resolveChatId conv_hash body s).1 now).2 = true
  · simp [hhash] at hr
    exact hr.symm
  · simp [hhash] at hr

/-- Whether `inlet` succeeds or raises, its conversation store and uuid
counter are the ones produced by the resolver. -/
theorem inlet_store_ctr {body : Dict} {now : Nat} {s : FilterState} {conv_hash : String}
    (hh : hashUserMessages (dget body "messages" (vList .nil)) = .ok conv_hash) :
    (inlet body now s).2.conversation_store = (resolveChatId conv_hash body s).2.1 ∧
    (inlet body now s).2.uuid_ctr = (resolveChatId conv_hash body s).2.2 := by
  rw [inlet]
  simp only [hh]
  rw [inletCore]
  by_cases hhash : hashable (assignSession (resolveChatId conv_hash body s).1 now).2 = true
  · simp [hhash]
  · simp [hhash]

/-- On success, `inlet`'s registry is the old registry with the new entry
written at the assigned session id, carrying the resolved chat id. -/
theorem inlet_ok_streams {body : Dict} {now : Nat} {s : FilterState} {conv_hash : String}
    {r : Dict}
    (hh : hashUserMessages (dget body "messages" (vList .nil)) = .ok conv_hash)
    (hr : (inlet body now s).1 = .ok r) :
    (inlet body now s).2.active_streams =
      setStream (assignSession (resolveChatId conv_hash body s).1 now).2
        { chat_id := dget (assignSession (resolveChatId conv_hash body s).1 now).1 "chat_id" vNull,
          start_time := now, active := true,
          end_time := none, stopped_by_user := none, stop_time := none }
        s.active_streams := by
  rw [inlet] at hr ⊢
  simp only [hh] at hr ⊢
  rw [inletCore] at hr ⊢
  by_cases hhash : hashable (assignSession (resolveChatId conv_hash body s).1 now).2 = true
  · simp [hhash]
  · simp [hhash] at hr

/-- `outlet` never touches the conversation store or the uuid counter, and
its valves are untouched. -/
theorem outlet_frame (body : Dict) (now : Nat) (s : FilterState) :
    (outlet body now s).2.conversation_store = s.conversation_store ∧
    (outlet body now s).2.uuid_ctr = s.uuid_ctr ∧
    (outlet body now s).2.valves = s.valves := by
  rw [outlet]
  split
  · split
    · split
      · split <;> simp
      · simp
    · simp
  · simp

/-- `handle_stop` never touches the conversation store or the uuid counter. -/
theorem handle_stop_frame (sid : String) (resp : BackendResp) (now : Nat)
    (s : FilterState) :
    (handle_stop sid resp now s).2.1.conversation_store = s.conversation_store ∧
    (handle_stop sid resp now s).2.1.uuid_ctr = s.uuid_ctr ∧
    (handle_stop sid resp now s).2.1.valves = s.valves := by
  rw [handle_stop]
  split
  · simp
  · split
    · split <;> simp
    · simp

/-- `inlet` keeps every existing conversation-store binding (it writes only
fingerprints that were absent). -/
theorem inlet_store_mono {k v : String} {s : FilterState} (body : Dict) (now : Nat)
    (h : lookupStr k s.conversation_store = some v) :
    lookupStr k (inlet body now s).2.conversation_store = some v := by
  rw [inlet]
  cases hh : hashUserMessages (dget body "messages" (vList .nil)) with
  | error e => simpa using h
  | ok conv_hash =>
    simp only []
    rw [inletCore]
    have hstore : lookupStr k (resolveChatId conv_hash body s).2.1 = some v := by
      rw [resolveChatId]
      split
      · simpa using h
      · split
        · simpa using h
        · simpa using lookupStr_append_some h _
    by_cases hhash : hashable (assignSession (resolveChatId conv_hash body s).1 now).2 = true
    · simpa [hhash] using hstore
    · simpa [hhash] using hstore

/-- Append-only conversation store: one step of any operation keeps every
existing fingerprint binding. -/
theorem step_store_mono {k v : String} {s : FilterState} (op : Op)
    (h : lookupStr k s.conversation_store = some v) :
    lookupStr k (step s op).conversation_store = some v := by
  cases op with
  | opInlet b n => exact inlet_store_mono b n h
  | opOutlet b n => rw [step, (outlet_frame b n s).1]; exact h
  | opStop sid r n => rw [step, (handle_stop_frame sid r n s).1]; exact h

/-- Append-only conversation store, over any sequence of operations. -/
theorem runOps_store_mono {k v : String} {s : FilterState} (ops : List Op)
    (h : lookupStr k s.conversation_store = some v) :
    lookupStr k (runOps s ops).conversation_store = some v := by
  induction ops generalizing s with
  | nil => exact h
  | cons op rest ih => exact ih (step_store_mono op h)

/-- When no value of the conversation store is the empty string (true of
every reachable state, since values are generated uuid tokens), the code's
trusted-client test of line 44 coincides with the spec's condition: the body
supplies a chat id that occurs among the store's values. -/
theorem trustedProvided_iff {body : Dict} {s : FilterState}
    (hvals : ∀ v ∈ storeValues s.conversation_store, v ≠ "") :
    trustedProvided body s = true ↔
      ∃ v, dgetOpt body "chat_id" = some (vStr v) ∧
        v ∈ storeValues s.conversation_store := by
  constructor
  · intro h
    rw [trustedProvided, Bool.and_eq_true, List.any_eq_true] at h
    obtain ⟨htr, v, hv, hbeq⟩ := h
    have hval : dget body "chat_id" vNull = vStr v := beq_vStr_iff.mp hbeq
    refine ⟨v, ?_, hv⟩
    rw [dget] at hval
    cases hopt : dgetOpt body "chat_id" with
    | none => rw [hopt] at hval; exact absurd hval (by simp [Option.getD])
    | some x => rw [hopt] at hval; simp at hval; rw [hval]
  · rintro ⟨v, hopt, hv⟩
    have hval : dget body "chat_id" vNull = vStr v := by simp [dget, hopt]
    rw [trustedProvided, Bool.and_eq_true, List.any_eq_true]
    refine ⟨?_, v, hv, ?_⟩
    · rw [hval, truthy]
      simpa using hvals v hv
    · rw [hval, beq_vStr_vStr]
      simp

/-- `inlet` without a client chat id, on success: the returned chat id is a
string that the post-state conversation store binds to the fingerprint. -/
theorem inlet_noclient_stored {body : Dict} {now : Nat} {s : FilterState} {c : String}
    {r : Dict}
    (habs : dgetOpt body "chat_id" = none)
    (hfc : firstUserContent (dget body "messages" (vList .nil)) = .ok c)
    (hr : (inlet body now s).1 = .ok r) :
    ∃ v, dgetOpt r "chat_id" = some (vStr v) ∧
      lookupStr (sha256hex c) (inlet body now s).2.conversation_store = some v := by
  have hh : hashUserMessages (dget body "messages" (vList .nil)) = .ok (sha256hex c) := by
    rw [hashUserMessages, hfc]; rfl
  have hnt : trustedProvided body s = false := trustedProvided_of_absent habs
  have hbody := inlet_ok_body hh hr
  have hsc := @inlet_store_ctr body now s _ hh
  cases hf : lookupStr (sha256hex c) s.conversation_store with
  | some cid =>
    refine ⟨cid, ?_, ?_⟩
    · rw [hbody, assignSession_chat_id, resolveChatId_found hnt hf]
      exact dgetOpt_dset_self ..
    · rw [hsc.1, resolveChatId_found hnt hf]
      exact hf
  | none =>
    refine ⟨uuidStr s.uuid_ctr, ?_, ?_⟩
    · rw [hbody, assignSession_chat_id, resolveChatId_new hnt hf]
      exact dgetOpt_dset_self ..
    · rw [hsc.1, resolveChatId_new hnt hf]
      exact lookupStr_append_self _ hf

/-- `inlet` without a client chat id, when the fingerprint is present in the
store: the stored id is returned. -/
theorem inlet_noclient_uses_stored {body : Dict} {now : Nat} {s : FilterState}
    {c v : String} {r : Dict}
    (habs : dgetOpt body "chat_id" = none)
    (hfc : firstUserContent (dget body "messages" (vList .nil)) = .ok c)
    (hf : lookupStr (sha256hex c) s.conversation_store = some v)
    (hr : (inlet body now s).1 = .ok r) :
    dgetOpt r "chat_id" = some (vStr v) := by
  have hh : hashUserMessages (dget body "messages" (vList .nil)) = .ok (sha256hex c) := by
    rw [hashUserMessages, hfc]; rfl
  have hnt : trustedProvided body s = false := trustedProvided_of_absent habs
  rw [inlet_ok_body hh hr, assignSession_chat_id, resolveChatId_found hnt hf]
  exact dgetOpt_dset_self ..

/-! ### The session-registry invariant -/

/-- Every registry entry's chat id is a string occurring among the values of
the conversation store. -/
def sessInv (s : FilterState) : Prop :=
  ∀ p ∈ s.active_streams,
    ∃ v, p.2.chat_id = vStr v ∧ v ∈ storeValues s.conversation_store

/-- The resolver only ever grows the value set of the conversation store. -/
theorem resolve_values_mono {v : String} {s : FilterState} (conv_hash : String)
    (body : Dict) (h : v ∈ storeValues s.conversation_store) :
    v ∈ storeValues (resolveChatId conv_hash body s).2.1 := by
  rw [resolveChatId]
  split
  · exact h
  · split
    · exact h
    · rw [storeValues_append]
      exact List.mem_append_left _ h

/-- The chat id the resolver writes into the body is always a string that
occurs among the values of the resolver's output store (in the trusted
branch because the test demands it, in the reuse branch because it was
looked up there, in the fresh branch because it is stored there). -/
theorem resolve_chat_id_in_values (conv_hash : String) (body : Dict) (s : FilterState) :
    ∃ v, dgetOpt (resolveChatId conv_hash body s).1 "chat_id" = some (vStr v) ∧
      v ∈ storeValues (resolveChatId conv_hash body s).2.1 := by
  by_cases ht : trustedProvided body s = true
  · rw [resolveChatId_trusted conv_hash ht]
    have ht' := ht
    rw [trustedProvided, Bool.and_eq_true, List.any_eq_true] at ht'
    obtain ⟨-, v, hv, hbeq⟩ := ht'
    have hval : dget body "chat_id" vNull = vStr v := beq_vStr_iff.mp hbeq
    exact ⟨v, by rw [dgetOpt_dset_self, hval], hv⟩
  · rw [Bool.not_eq_true] at ht
    cases hf : lookupStr conv_hash s.conversation_store with
    | some cid =>
      rw [resolveChatId_found ht hf]
      exact ⟨cid, dgetOpt_dset_self .., lookupStr_mem_values hf⟩
    | none =>
      rw [resolveChatId_new ht hf]
      refine ⟨uuidStr s.uuid_ctr, dgetOpt_dset_self .., ?_⟩
      rw [storeValues_append]
      exact List.mem_append_right _ (by simp [storeValues])

/-- `inlet` preserves the session-registry invariant. -/
theorem sessInv_inlet {s : FilterState} (body : Dict) (now : Nat) (h : sessInv s) :
    sessInv (inlet body now s).2 := by
  rw [inlet]
  cases hh : hashUserMessages (dget body "messages" (vList .nil)) with
  | error e => exact h
  | ok conv_hash =>
    simp only []
    rw [inletCore]
    by_cases hhash : hashable (assignSession (resolveChatId conv_hash body s).1 now).2 = true
    · simp only [hhash, if_true]
      intro p hp
      rcases setStream_mem hp with hnew | hold
      · obtain ⟨v, hvv, hv⟩ := resolve_chat_id_in_values conv_hash body s
        refine ⟨v, ?_, hv⟩
        rw [hnew]
        simp only []
        rw [dget, assignSession_chat_id, hvv]
        rfl
      · obtain ⟨v, hvv, hv⟩ := h p hold
        exact ⟨v, hvv, resolve_values_mono conv_hash body hv⟩
    · simp only [hhash, Bool.false_eq_true, if_false]
      intro p hp
      obtain ⟨v, hvv, hv⟩ := h p hp
      exact ⟨v, hvv, resolve_values_mono conv_hash body hv⟩

/-- `outlet` preserves the session-registry invariant. -/
theorem sessInv_outlet {s : FilterState} (body : Dict) (now : Nat) (h : sessInv s) :
    sessInv (outlet body now s).2 := by
  rw [outlet]
  split
  · split
    · split
      · split
        · intro p hp
          rcases setStream_mem hp with hnew | hold
          · rename_i info hinfo _
            obtain ⟨k', hk'⟩ := lookupStream_mem hinfo
            obtain ⟨v, hvv, hv⟩ := h (k', info) hk'
            exact ⟨v, by rw [hnew]; exact hvv, hv⟩
          · exact h p hold
        · exact h
      · exact h
    · exact h
  · exact h

/-- `handle_stop` preserves the session-registry invariant. -/
theorem sessInv_stop {s : FilterState} (sid : String) (resp : BackendResp) (now : Nat)
    (h : sessInv s) : sessInv (handle_stop sid resp now s).2.1 := by
  rw [handle_stop]
  split
  · exact h
  · split
    · split
      · intro p hp
        rcases setStream_mem hp with hnew | hold
        · rename_i info hinfo _ _ _
          obtain ⟨k', hk'⟩ := lookupStream_mem hinfo
          obtain ⟨v, hvv, hv⟩ := h (k', info) hk'
          exact ⟨v, by rw [hnew]; exact hvv, hv⟩
        · exact h p hold
      · exact h
    · exact h

/-- One step of any operation preserves the session-registry invariant. -/
theorem sessInv_step {s : FilterState} (op : Op) (h : sessInv s) : sessInv (step s op) := by
  cases op with
  | opInlet b n => exact sessInv_inlet b n h
  | opOutlet b n => exact sessInv_outlet b n h
  | opStop sid r n => exact sessInv_stop sid r n h

/-- The session-registry invariant holds in the initial state. -/
theorem sessInv_init : sessInv initState := by
  intro p hp
  simp [initState] at hp

/-- The session-registry invariant holds after any run from a state where it
holds. -/
theorem sessInv_runOps {s : FilterState} (h : sessInv s) (ops : List Op) :
    sessInv (runOps s ops) := by
  induction ops generalizing s with
  | nil => exact h
  | cons op rest ih => exact ih (sessInv_step op h)

/-! ### The claims -/

/-- C3: the fingerprint-to-conversation-identifier map is append-only: every
fingerprint binding of the conversation store survives, unchanged, any
subsequent sequence of `inlet`, `outlet` and `handle_stop` operations —
existing keys are never overwritten or removed. -/
theorem C3_store_append_only (s : FilterState) (ops : List Op) (k v : String)
    (h : lookupStr k s.conversation_store = some v) :
    lookupStr k (runOps s ops).conversation_store = some v :=
  runOps_store_mono ops h

/-- Witness for C3: a concrete stored binding survives an inlet, an outlet
and a stop. -/
theorem C3_store_append_only_witness :
    lookupStr "k" (runOps ⟨{}, [("k", "v")], [], 0⟩
      [Op.opInlet [(vStr "messages", vList .nil)] 3,
       Op.opOutlet [(vStr "session_id", vStr "session-3"), (vStr "done", vBool true)] 4,
       Op.opStop "session-3" (.status 200) 5]).conversation_store = some "v" :=
  C3_store_append_only ⟨{}, [("k", "v")], [], 0⟩ _ "k" "v" rfl

/-- C9: in every reachable state, every session registered in the session
registry maps to a chat id that occurs as a value of the conversation record
(in particular it is either a freshly generated identifier — which the
resolver stores immediately — or a previously stored one), and this
invariant is preserved by every single `inlet`, `outlet` and `handle_stop`
step from any state satisfying it. -/
theorem C9_registry_chat_ids_from_store :
    (∀ ops : List Op, sessInv (runOps initState ops)) ∧
    (∀ (s : FilterState) (op : Op), sessInv s → sessInv (step s op)) :=
  ⟨fun ops => sessInv_runOps sessInv_init ops, fun _ op h => sessInv_step op h⟩

/-- Witness for C9: the invariant after one concrete inlet step. -/
theorem C9_registry_chat_ids_from_store_witness :
    sessInv (step initState (Op.opInlet [(vStr "messages", vList .nil)] 3)) :=
  C9_registry_chat_ids_from_store.2 initState (Op.opInlet [(vStr "messages", vList .nil)] 3)
    (C9_registry_chat_ids_from_store.1 [])

/-- C6: stopping a session id absent from the registry returns the
structured outcome `{status: "error", message: "Session not found"}`, makes
no network call, and leaves the whole state — conversation record and
session registry — unchanged. -/
theorem C6_stop_unknown_session (sid : String) (resp : BackendResp) (now : Nat)
    (s : FilterState) (h : lookupStream (vStr sid) s.active_streams = none) :
    handle_stop sid resp now s =
      ([(vStr "status", vStr "error"), (vStr "message", vStr "Session not found")],
       s, none) := by
  rw [handle_stop, h]

/-- Witness for C6 at a concrete unknown session. -/
theorem C6_stop_unknown_session_witness :
    handle_stop "unknown-session" (.status 200) 7 initState =
      ([(vStr "status", vStr "error"), (vStr "message", vStr "Session not found")],
       initState, none) :=
  C6_stop_unknown_session "unknown-session" (.status 200) 7 initState rfl

/-- C7: stopping a registered session with the backend answering HTTP 200
posts to `backend_url ++ stop_endpoint` with payload `{session_id, chat_id}`,
marks the entry inactive with `stopped_by_user = true` and a stop timestamp,
and returns `{status: "success", message: "Stream stopped"}`; and 200 is the
only status code treated as success — every other code yields a `status =
"error"` outcome. -/
theorem C7_stop_success (sid : String) (now : Nat) (s : FilterState) (info : StreamInfo)
    (h : lookupStream (vStr sid) s.active_streams = some info) :
    handle_stop sid (.status 200) now s =
      ([(vStr "status", vStr "success"), (vStr "message", vStr "Stream stopped")],
       { s with
         active_streams :=
           setStream (vStr sid)
             { info with active := false, stopped_by_user := some true,
                         stop_time := some now }
             s.active_streams },
       some { url := s.valves.backend_url ++ s.valves.stop_endpoint,
              payload := [(vStr "session_id", vStr sid), (vStr "chat_id", info.chat_id)] }) ∧
    (∀ code : Nat, code ≠ 200 →
      dgetOpt (handle_stop sid (.status code) now s).1 "status" = some (vStr "error")) := by
  constructor
  · rw [handle_stop, h]
    rfl
  · intro code hcode
    rw [handle_stop, h]
    simp only [beq_false_of_ne hcode, Bool.false_eq_true, if_false]
    rfl

/-- A concrete stream-info entry used by the stop-handler witnesses. -/
def wInfo : StreamInfo := ⟨vStr "c", 1, true, none, none, none⟩

/-- A concrete filter state with one registered session, used by the
stop-handler witnesses. -/
def wStop : FilterState := ⟨{}, [], [(vStr "s1", wInfo)], 0⟩

/-- Witness for C7: a concrete registered session stopped with HTTP 200. -/
theorem C7_stop_success_witness :
    handle_stop "s1" (.status 200) 9 wStop =
      ([(vStr "status", vStr "success"), (vStr "message", vStr "Stream stopped")],
       { wStop with
         active_streams :=
           setStream (vStr "s1")
             { wInfo with active := false, stopped_by_user := some true, stop_time := some 9 }
             wStop.active_streams },
       some { url := wStop.valves.backend_url ++ wStop.valves.stop_endpoint,
              payload := [(vStr "session_id", vStr "s1"), (vStr "chat_id", wInfo.chat_id)] }) :=
  (C7_stop_success "s1" 9 wStop wInfo rfl).1

/-- C8: stopping a registered session when the backend answers a non-200
status, or the transport fails, returns a structured error outcome whose
message carries the status code (resp. the transport error description),
and leaves the state — in particular the session's registry entry and its
`active` flag — entirely unchanged.  (`handle_stop` is a total function of
its inputs: all failure modes are returned as values, never raised.) -/
theorem C8_stop_failure (sid : String) (now : Nat) (s : FilterState) (info : StreamInfo)
    (code : Nat) (m : String)
    (h : lookupStream (vStr sid) s.active_streams = some info) (hc : code ≠ 200) :
    handle_stop sid (.status code) now s =
      ([(vStr "status", vStr "error"),
        (vStr "message", vStr ("Backend returned " ++ Nat.repr code))],
       s,
       some { url := s.valves.backend_url ++ s.valves.stop_endpoint,
              payload := [(vStr "session_id", vStr sid), (vStr "chat_id", info.chat_id)] }) ∧
    handle_stop sid (.transportError m) now s =
      ([(vStr "status", vStr "error"),
        (vStr "message", vStr ("Failed to reach backend: " ++ m))],
       s,
       some { url := s.valves.backend_url ++ s.valves.stop_endpoint,
              payload := [(vStr "session_id", vStr sid), (vStr "chat_id", info.chat_id)] }) := by
  constructor
  · rw [handle_stop, h]
    simp only [beq_false_of_ne hc, Bool.false_eq_true, if_false]
  · rw [handle_stop, h]

/-- Witness for C8: backend answering 500 leaves the concrete state
untouched and reports the code. -/
theorem C8_stop_failure_witness :
    handle_stop "s1" (.status 500) 9 wStop =
      ([(vStr "status", vStr "error"),
        (vStr "message", vStr ("Backend returned " ++ Nat.repr 500))],
       wStop,
       some { url := wStop.valves.backend_url ++ wStop.valves.stop_endpoint,
              payload := [(vStr "session_id", vStr "s1"), (vStr "chat_id", wInfo.chat_id)] }) :=
  (C8_stop_failure "s1" 9 wStop wInfo 500 "timeout" rfl (by decide)).1

/-- C1: on every successful `inlet` call (over a state whose stored chat ids
are non-empty strings, as in every reachable state), the conversation
identifier written into the body is decided in priority order: a
client-supplied identifier occurring among the conversation record's values
is used verbatim; otherwise the identifier stored under the fingerprint of
the first user message is used if that fingerprint is a key of the record;
otherwise the freshly generated identifier is used and stored in the record
keyed by the fingerprint. -/
theorem C1_resolve_priority (body : Dict) (now : Nat) (s : FilterState) (r : Dict)
    (c : String)
    (hvals : ∀ v ∈ storeValues s.conversation_store, v ≠ "")
    (hfc : firstUserContent (dget body "messages" (vList .nil)) = .ok c)
    (hr : (inlet body now s).1 = .ok r) :
    ((∃ v, dgetOpt body "chat_id" = some (vStr v) ∧
        v ∈ storeValues s.conversation_store) →
      dgetOpt r "chat_id" = dgetOpt body "chat_id") ∧
    ((¬ ∃ v, dgetOpt body "chat_id" = some (vStr v) ∧
        v ∈ storeValues s.conversation_store) →
      ∀ cid, lookupStr (sha256hex c) s.conversation_store = some cid →
        dgetOpt r "chat_id" = some (vStr cid)) ∧
    ((¬ ∃ v, dgetOpt body "chat_id" = some (vStr v) ∧
        v ∈ storeValues s.conversation_store) →
      lookupStr (sha256hex c) s.conversation_store = none →
        dgetOpt r "chat_id" = some (vStr (uuidStr s.uuid_ctr)) ∧
        lookupStr (sha256hex c) (inlet body now s).2.conversation_store =
          some (uuidStr s.uuid_ctr)) := by
  have hh : hashUserMessages (dget body "messages" (vList .nil)) = .ok (sha256hex c) := by
    rw [hashUserMessages, hfc]; rfl
  have hbody := inlet_ok_body hh hr
  refine ⟨?_, ?_, ?_⟩
  · intro hex
    have ht : trustedProvided body s = true := (trustedProvided_iff hvals).mpr hex
    obtain ⟨v, hv, -⟩ := hex
    rw [hbody, assignSession_chat_id, resolveChatId_trusted _ ht, dgetOpt_dset_self,
        dget, hv]
    rfl
  · intro hnex cid hcid
    have hnt : trustedProvided body s = false := by
      rw [← Bool.not_eq_true, trustedProvided_iff hvals]
      exact hnex
    rw [hbody, assignSession_chat_id, resolveChatId_found hnt hcid]
    exact dgetOpt_dset_self ..
  · intro hnex hnone
    have hnt : trustedProvided body s = false := by
      rw [← Bool.not_eq_true, trustedProvided_iff hvals]
      exact hnex
    constructor
    · rw [hbody, assignSession_chat_id, resolveChatId_new hnt hnone]
      exact dgetOpt_dset_self ..
    · rw [(inlet_store_ctr hh).1, resolveChatId_new hnt hnone]
      exact lookupStr_append_self _ hnone

/-- A concrete request body with one user message of content `"hi"` and no
client-supplied identifiers. -/
def wBodyHi : Dict :=
  [(vStr "messages",
    vList (.cons (vDict (.cons (vStr "role") (vStr "user")
      (.cons (vStr "content") (vStr "hi") .nil))) .nil))]

/-- The body `inlet` produces for `wBodyHi` on the initial state at time 5. -/
def wResHi : Dict :=
  [(vStr "messages",
    vList (.cons (vDict (.cons (vStr "role") (vStr "user")
      (.cons (vStr "content") (vStr "hi") .nil))) .nil)),
   (vStr "chat_id", vStr (uuidStr 0)),
   (vStr "session_id", vStr "session-5")]

/-- Witness for C1: on the initial state the fresh branch fires, returns the
generated identifier and stores it under the fingerprint. -/
theorem C1_resolve_priority_witness :
    dgetOpt wResHi "chat_id" = some (vStr (uuidStr 0)) ∧
    lookupStr (sha256hex "hi") (inlet wBodyHi 5 initState).2.conversation_store =
      some (uuidStr 0) :=
  (C1_resolve_priority wBodyHi 5 initState wResHi "hi"
    (by intro v hv; simp [initState, storeValues] at hv) rfl rfl).2.2
    (by rintro ⟨v, hv, -⟩
        exact Option.noConfusion (show (none : Option Val) = some (vStr v) from hv))
    rfl

/-- C2: two `inlet` calls whose bodies carry the same first-user-message
content and no client chat id receive the same conversation identifier, no
matter how many `inlet`/`outlet`/`handle_stop` invocations happen in
between. -/
theorem C2_same_content_same_id (s0 : FilterState) (b1 b2 : Dict) (n1 n2 : Nat)
    (ops : List Op) (c : String) (r1 r2 : Dict)
    (h1 : dgetOpt b1 "chat_id" = none) (h2 : dgetOpt b2 "chat_id" = none)
    (hc1 : firstUserContent (dget b1 "messages" (vList .nil)) = .ok c)
    (hc2 : firstUserContent (dget b2 "messages" (vList .nil)) = .ok c)
    (hr1 : (inlet b1 n1 s0).1 = .ok r1)
    (hr2 : (inlet b2 n2 (runOps (inlet b1 n1 s0).2 ops)).1 = .ok r2) :
    dgetOpt r1 "chat_id" = dgetOpt r2 "chat_id" := by
  obtain ⟨v, hv1, hstored⟩ := inlet_noclient_stored h1 hc1 hr1
  have hstored2 := runOps_store_mono ops hstored
  have hv2 := inlet_noclient_uses_stored h2 hc2 hstored2 hr2
  rw [hv1, hv2]

/-- A second concrete request body with the same user content `"hi"` but its
own session id. -/
def wBodyHi2 : Dict :=
  [(vStr "messages",
    vList (.cons (vDict (.cons (vStr "role") (vStr "user")
      (.cons (vStr "content") (vStr "hi") .nil))) .nil)),
   (vStr "session_id", vStr "S2")]

/-- The body `inlet` produces for `wBodyHi2` after `wBodyHi` was resolved
and an unrelated outlet ran: the stored identifier is reused. -/
def wResHi2 : Dict :=
  [(vStr "messages",
    vList (.cons (vDict (.cons (vStr "role") (vStr "user")
      (.cons (vStr "content") (vStr "hi") .nil))) .nil)),
   (vStr "session_id", vStr "S2"),
   (vStr "chat_id", vStr (uuidStr 0))]

/-- Witness for C2: the two concrete calls, separated by an outlet and a
stop, agree on the conversation identifier. -/
theorem C2_same_content_same_id_witness :
    dgetOpt wResHi "chat_id" = dgetOpt wResHi2 "chat_id" :=
  C2_same_content_same_id initState wBodyHi wBodyHi2 5 6
    [Op.opOutlet [(vStr "session_id", vStr "session-5"), (vStr "done", vBool true)] 7,
     Op.opStop "session-5" (.status 500) 8]
    "hi" wResHi wResHi2 rfl rfl rfl rfl rfl rfl

/-- C10: when the client supplies a chat id that already occurs among the
conversation record's values, `inlet` leaves the conversation record (and
the uuid counter) unchanged — in particular the request's fingerprint is not
bound to that identifier — so a later request with a fingerprint that was
never stored and no client chat id obtains the freshly generated identifier,
different from the trusted one.  The freshness hypothesis (ids the generator
has not yet drawn do not occur among the stored values) holds in every
reachable state and idealises the uniqueness of `uuid.uuid4()`. -/
theorem C10_trusted_leaves_record_unchanged (body : Dict) (now : Nat) (s : FilterState)
    (r : Dict) (v : String)
    (hvals : ∀ u ∈ storeValues s.conversation_store, u ≠ "")
    (hfresh : ∀ j, s.uuid_ctr ≤ j → uuidStr j ∉ storeValues s.conversation_store)
    (htr : dgetOpt body "chat_id" = some (vStr v))
    (hmem : v ∈ storeValues s.conversation_store)
    (hr : (inlet body now s).1 = .ok r) :
    (inlet body now s).2.conversation_store = s.conversation_store ∧
    (inlet body now s).2.uuid_ctr = s.uuid_ctr ∧
    (∀ (b2 : Dict) (now2 : Nat) (r2 : Dict) (c2 : String),
      dgetOpt b2 "chat_id" = none →
      firstUserContent (dget b2 "messages" (vList .nil)) = .ok c2 →
      lookupStr (sha256hex c2) s.conversation_store = none →
      (inlet b2 now2 (inlet body now s).2).1 = .ok r2 →
      dgetOpt r2 "chat_id" = some (vStr (uuidStr s.uuid_ctr)) ∧
        uuidStr s.uuid_ctr ≠ v) := by
  have ht : trustedProvided body s = true := (trustedProvided_iff hvals).mpr ⟨v, htr, hmem⟩
  have hh : ∃ ch, hashUserMessages (dget body "messages" (vList .nil)) = .ok ch := by
    cases hhm : hashUserMessages (dget body "messages" (vList .nil)) with
    | error e =>
      rw [inlet] at hr
      simp only [hhm] at hr
      simp at hr
    | ok ch => exact ⟨ch, rfl⟩
  obtain ⟨ch, hh⟩ := hh
  have hsc := @inlet_store_ctr body now s _ hh
  have hstore : (inlet body now s).2.conversation_store = s.conversation_store := by
    rw [hsc.1, resolveChatId_trusted ch ht]
  have hctr : (inlet body now s).2.uuid_ctr = s.uuid_ctr := by
    rw [hsc.2, resolveChatId_trusted ch ht]
  refine ⟨hstore, hctr, ?_⟩
  intro b2 now2 r2 c2 habs2 hc2 hnone2 hr2
  have hh2 : hashUserMessages (dget b2 "messages" (vList .nil)) = .ok (sha256hex c2) := by
    rw [hashUserMessages, hc2]; rfl
  have hnt2 : trustedProvided b2 (inlet body now s).2 = false :=
    trustedProvided_of_absent habs2
  have hnone2' : lookupStr (sha256hex c2) (inlet body now s).2.conversation_store = none := by
    rw [hstore]; exact hnone2
  constructor
  · rw [inlet_ok_body hh2 hr2, assignSession_chat_id, resolveChatId_new hnt2 hnone2',
        hctr]
    exact dgetOpt_dset_self ..
  · intro heq
    exact hfresh s.uuid_ctr (Nat.le_refl _) (heq ▸ hmem)

/-- The generated identifiers never collide with the literal `"c-0"` used in
the C10 witness state (their length is at least 6). -/
theorem uuidStr_ne_c0 (j : Nat) : uuidStr j ≠ "c-0" := by
  intro h
  have hl := congrArg String.length h
  rw [uuidStr, String.length_append] at hl
  have h5 : ("uuid-").length = 5 := rfl
  have h3 : ("c-0").length = 3 := rfl
  rw [h5, h3] at hl
  omega

/-- The C10 witness state: one stored conversation whose id `"c-0"` the
client then re-supplies. -/
def wTrust : FilterState := ⟨{}, [("k0", "c-0")], [], 0⟩

/-- The C10 witness request: re-supplies the stored id `"c-0"` with no user
messages. -/
def wBodyTrust : Dict :=
  [(vStr "messages", vList .nil), (vStr "chat_id", vStr "c-0")]

/-- What `inlet` returns for `wBodyTrust` on `wTrust` at time 5. -/
def wResTrust : Dict :=
  [(vStr "messages", vList .nil), (vStr "chat_id", vStr "c-0"),
   (vStr "session_id", vStr "session-5")]

/-- What the follow-up `inlet` of `wBodyHi` returns at time 7: a fresh id. -/
def wResTrust2 : Dict :=
  [(vStr "messages",
    vList (.cons (vDict (.cons (vStr "role") (vStr "user")
      (.cons (vStr "content") (vStr "hi") .nil))) .nil)),
   (vStr "chat_id", vStr (uuidStr 0)),
   (vStr "session_id", vStr "session-7")]

/-- Witness for C10: after the trusted call, a request with unseen content
and no client id obtains the fresh identifier, different from `"c-0"`. -/
theorem C10_trusted_leaves_record_unchanged_witness :
    dgetOpt wResTrust2 "chat_id" = some (vStr (uuidStr 0)) ∧ uuidStr 0 ≠ "c-0" :=
  (C10_trusted_leaves_record_unchanged wBodyTrust 5 wTrust wResTrust "c-0"
    (by intro u hu
        simp [wTrust, storeValues] at hu
        rw [hu]; decide)
    (by intro j hj hmem
        simp [wTrust, storeValues] at hmem
        exact uuidStr_ne_c0 j hmem)
    rfl (by simp [wTrust, storeValues]) rfl).2.2
    wBodyHi 7 wResTrust2 "hi" rfl rfl rfl rfl

/-! ### C4: inlet's failure paths -/

/-- A message element over which `_hash_user_messages` cannot raise: a dict
whose `content` value (defaulting to `""`) is a string. -/
def msgOk : Val → Bool
  | vDict m =>
    (match ValPairs.get m "content" (vStr "") with
     | vStr _ => true
     | _ => false)
  | _ => false

/-- All message elements are benign. -/
def msgsOk : ValList → Bool
  | .nil => true
  | .cons m rest => msgOk m && msgsOk rest

/-- A request body on which `inlet` cannot raise: the `messages` field, when
present, is a list of benign message dicts, and the `session_id` field, when
present and truthy, is hashable. -/
def inletWellFormed (body : Dict) : Bool :=
  (match dgetOpt body "messages" with
   | none => true
   | some (vList ms) => msgsOk ms
   | some _ => false) &&
  (match dgetOpt body "session_id" with
   | none => true
   | some v => !truthy v || hashable v)

/-- Benign message lists always yield a fingerprint content. -/
theorem firstUserContentList_ok :
    ∀ (ms : ValList), msgsOk ms = true → ∃ c, firstUserContentList ms = .ok c
  | .nil, _ => ⟨"", rfl⟩
  | .cons m rest, h => by
    rw [msgsOk, Bool.and_eq_true] at h
    obtain ⟨hm, hrest⟩ := h
    cases m with
    | vDict p =>
      rw [firstUserContentList]
      by_cases hrole : Val.beq (ValPairs.get p "role" vNull) (vStr "user") = true
      · rw [if_pos hrole]
        rw [msgOk] at hm
        cases hc : ValPairs.get p "content" (vStr "") with
        | vStr c => exact ⟨c, rfl⟩
        | vNull => rw [hc] at hm; exact absurd hm (by simp)
        | vBool b => rw [hc] at hm; exact absurd hm (by simp)
        | vInt i => rw [hc] at hm; exact absurd hm (by simp)
        | vList l => rw [hc] at hm; exact absurd hm (by simp)
        | vDict d => rw [hc] at hm; exact absurd hm (by simp)
      · rw [if_neg hrole]
        exact firstUserContentList_ok rest hrest
    | vNull => exact absurd hm (by simp [msgOk])
    | vBool b => exact absurd hm (by simp [msgOk])
    | vInt i => exact absurd hm (by simp [msgOk])
    | vStr t => exact absurd hm (by simp [msgOk])
    | vList l => exact absurd hm (by simp [msgOk])

/-- The resolver's body write never touches the `session_id` field. -/
theorem resolveChatId_session_id (conv_hash : String) (body : Dict) (s : FilterState) :
    dgetOpt (resolveChatId conv_hash body s).1 "session_id" = dgetOpt body "session_id" := by
  rw [resolveChatId]
  split
  · exact dgetOpt_dset_ne _ _ (by decide)
  · split
    · exact dgetOpt_dset_ne _ _ (by decide)
    · exact dgetOpt_dset_ne _ _ (by decide)

/-- C4 (amended): `inlet` has no failure path on bodies whose fields, where
present, are well-typed — `messages` a list of dicts with string (or absent)
content values, a hashable truthy `session_id` — and an absent `messages`
field degrades to the fingerprint of the empty string.  (The original claim
is refuted by `C4_no_failure_path_counterexample`: a malformed `messages`
field raises instead of degrading.) -/
theorem C4_inlet_total_on_wellformed (body : Dict) (now : Nat) (s : FilterState)
    (h : inletWellFormed body = true) :
    (inlet body now s).1.isOk = true ∧
    (dgetOpt body "messages" = none →
      hashUserMessages (dget body "messages" (vList .nil)) = .ok (sha256hex "")) := by
  rw [inletWellFormed, Bool.and_eq_true] at h
  obtain ⟨hmsg, hsid⟩ := h
  constructor
  · have hhash : ∃ c, firstUserContent (dget body "messages" (vList .nil)) = .ok c := by
      cases hm : dgetOpt body "messages" with
      | none => rw [dget, hm]; exact ⟨"", rfl⟩
      | some v =>
        rw [hm] at hmsg
        cases v with
        | vList ms =>
          rw [dget, hm]
          exact firstUserContentList_ok ms hmsg
        | vNull => exact absurd hmsg (by simp)
        | vBool b => exact absurd hmsg (by simp)
        | vInt i => exact absurd hmsg (by simp)
        | vStr t => exact absurd hmsg (by simp)
        | vDict d => exact absurd hmsg (by simp)
    obtain ⟨c, hc⟩ := hhash
    have hh : hashUserMessages (dget body "messages" (vList .nil)) = .ok (sha256hex c) := by
      rw [hashUserMessages, hc]; rfl
    rw [inlet]
    simp only [hh]
    rw [inletCore]
    have hsess : hashable (assignSession (resolveChatId (sha256hex c) body s).1 now).2 = true := by
      by_cases htr : truthy (dget (resolveChatId (sha256hex c) body s).1 "session_id" vNull) = true
      · have hstep : (assignSession (resolveChatId (sha256hex c) body s).1 now).2 =
            dget (resolveChatId (sha256hex c) body s).1 "session_id" vNull := by
          rw [assignSession, if_pos htr]
        rw [hstep]
        rw [dget, resolveChatId_session_id] at htr ⊢
        revert htr hsid
        cases hv : dgetOpt body "session_id" with
        | none =>
          intro hsid htr
          exact absurd htr (by decide)
        | some v =>
          intro hsid htr
          rcases (Bool.or_eq_true _ _).mp (show (!truthy v || hashable v) = true from hsid)
            with hnot | hok
          · exact absurd (show truthy v = true from htr) (by simpa using hnot)
          · exact hok
      · have hstep : (assignSession (resolveChatId (sha256hex c) body s).1 now).2 =
            vStr ("session-" ++ Nat.repr now) := by
          rw [assignSession, if_neg htr]
        rw [hstep]
        rfl
    rw [if_pos hsess]
    rfl
  · intro h0
    rw [dget, h0]
    rfl

/-- Witness for the amended C4 on a concrete well-formed body. -/
theorem C4_inlet_total_on_wellformed_witness :
    (inlet wBodyHi2 6 initState).1.isOk = true :=
  (C4_inlet_total_on_wellformed wBodyHi2 6 initState rfl).1

/-- C4 refuted as stated: the body `{"messages": None}` — a malformed
`messages` field — makes `inlet` raise `TypeError` (Python iterates `None`)
instead of degrading to the default fingerprint; no body is returned. -/
theorem C4_no_failure_path_counterexample :
    inlet [(vStr "messages", vNull)] 0 initState = (.error .typeError, initState) := rfl

/-! ### C5: outlet -/

/-- The completion test of `outlet` (line 74 of the source): a truthy `done`
value or a truthy `stop_reason` value. -/
def completionSignal (body : Dict) : Bool :=
  truthy (dget body "done" (vBool false)) || truthy (dget body "stop_reason" vNull)

/-- A response body whose `session_id`, when truthy, is hashable (`outlet`
raises `TypeError` on unhashable ones). -/
def outletSidOk (body : Dict) : Bool :=
  !truthy (dget body "session_id" vNull) || hashable (dget body "session_id" vNull)

/-- C5 (amended): for response bodies whose truthy `session_id` is hashable,
`outlet` returns the body unmodified; when the session id is truthy and
registered and the body signals completion — a truthy `done` value or a
truthy `stop_reason` value — the entry is marked inactive with an end
timestamp; in every other case (no completion signal, falsy or unknown
session id) the state is unchanged.  (The original claim is refuted by
`C5_finalize_counterexample`: a present but falsy `stop_reason` field, such
as the empty string, does not finalize the session.) -/
theorem C5_outlet_finalize (body : Dict) (now : Nat) (s : FilterState)
    (hsid : outletSidOk body = true) :
    (outlet body now s).1 = .ok body ∧
    (∀ info, truthy (dget body "session_id" vNull) = true →
      lookupStream (dget body "session_id" vNull) s.active_streams = some info →
      (completionSignal body = true →
        (outlet body now s).2 =
          { s with
            active_streams :=
              setStream (dget body "session_id" vNull)
                { info with active := false, end_time := some now }
                s.active_streams }) ∧
      (completionSignal body = false → (outlet body now s).2 = s)) ∧
    ((truthy (dget body "session_id" vNull) = false ∨
      lookupStream (dget body "session_id" vNull) s.active_streams = none) →
      (outlet body now s).2 = s) := by
  rw [outlet]
  split
  · rename_i htru
    split
    · rename_i hhash
      split
      · rename_i info heq
        split
        · rename_i hdone
          refine ⟨rfl, ?_, ?_⟩
          · intro info' htr' hl'
            rw [heq] at hl'
            cases hl'
            refine ⟨fun _ => rfl, fun hcs => ?_⟩
            rw [completionSignal] at hcs
            exact absurd hdone (by simp [hcs])
          · intro hcase
            rcases hcase with hcase | hcase
            · exact absurd htru (by simp [hcase])
            · rw [heq] at hcase; cases hcase
        · rename_i hdone
          refine ⟨rfl, ?_, fun _ => rfl⟩
          intro info' htr' hl'
          rw [heq] at hl'
          cases hl'
          refine ⟨fun hcs => ?_, fun _ => rfl⟩
          rw [completionSignal] at hcs
          exact absurd hcs hdone
      · rename_i heq
        refine ⟨rfl, ?_, fun _ => rfl⟩
        intro info' htr' hl'
        rw [heq] at hl'
        cases hl'
    · rename_i hhash
      rw [outletSidOk, htru] at hsid
      exact absurd (by simpa using hsid) hhash
  · rename_i htru
    refine ⟨rfl, ?_, fun _ => rfl⟩
    intro info' htr' hl'
    exact absurd htr' htru

/-- The C5 witness response body: known session, explicit `done: true`. -/
def wBodyDone : Dict := [(vStr "session_id", vStr "s1"), (vStr "done", vBool true)]

/-- Witness for the amended C5: the concrete `done: true` body finalizes the
registered session. -/
theorem C5_outlet_finalize_witness :
    (outlet wBodyDone 9 wStop).1 = .ok wBodyDone ∧
    (outlet wBodyDone 9 wStop).2 =
      { wStop with
        active_streams :=
          setStream (dget wBodyDone "session_id" vNull)
            { wInfo with active := false, end_time := some 9 }
            wStop.active_streams } :=
  ⟨(C5_outlet_finalize wBodyDone 9 wStop rfl).1,
   ((C5_outlet_finalize wBodyDone 9 wStop rfl).2.1 wInfo rfl rfl).1 rfl⟩

/-- The C5 counterexample response body: known session and a `stop_reason`
field whose value is the (falsy) empty string. -/
def wBodySR : Dict := [(vStr "session_id", vStr "s1"), (vStr "stop_reason", vStr "")]

/-- C5 refuted as stated: a response body carrying a registered session id
and a `stop_reason` field is claimed to finalize the session, but with a
falsy `stop_reason` value (here `""`) `outlet` leaves the registry entry
untouched — it is still active with no end time. -/
theorem C5_finalize_counterexample :
    dgetOpt wBodySR "stop_reason" = some (vStr "") ∧
    lookupStream (vStr "s1") wStop.active_streams = some wInfo ∧
    wInfo.active = true ∧ wInfo.end_time = none ∧
    outlet wBodySR 9 wStop = (.ok wBodySR, wStop) :=
  ⟨rfl, rfl, rfl, rfl, rfl⟩

end ChatIdPipe
